import Mathlib

/-!
Verification of the orbital-geometry core of the `orbel` two-body orbit
visualizer.  The definitions below are a shallow embedding of the pure
numerical routines of `orbel_app/core/orbit_math.py`, the value objects of
`orbel_app/plotting/models.py`, the phase-tracking canvas state of
`orbel_app/plotting/base_canvas.py`, the animator of
`orbel_app/plotting/animator.py`, and the node/arc anomaly formulas of
`orbel_app/plotting/relative_canvas.py` and `absolute_canvas.py`.
Machine floats are modelled by exact reals; Python's float `%` with a
positive modulus is modelled by `pymod`, and `np.arctan2` by `atan2` below.
Rendering-side effects (matplotlib artists, redraw calls) have no bearing on
the verified quantities and are omitted from the state.
-/

open scoped Classical

namespace Orbel

/-- Python float modulo `x % y` for a positive modulus `y` (result carries the
sign of `y`, i.e. lies in `[0, y)`), as used by `(-w_eff) % (2 * np.pi)` in
the canvases. -/
noncomputable def pymod (x y : ℝ) : ℝ := x - y * ⌊x / y⌋

/-- `np.arctan2 y x`: the angle of the point `(x, y)` in `(-π, π]`, modelled
via the complex argument. -/
noncomputable def atan2 (y x : ℝ) : ℝ := Complex.arg (x + y * Complex.I)

/-- One pass of the Newton loop body of `solve_kepler`
(`orbit_math.py` lines 38-46), with explicit fuel: returns the final `E`
together with the number of iterations executed (the Python loop always runs
at least once and breaks as soon as the update step `dE` drops below `tol`
in absolute value, checking after the in-place update `E -= dE`). -/
noncomputable def keplerLoop (M e tol : ℝ) : ℕ → ℝ → ℝ × ℕ
  | 0, E => (E, 0)
  | n + 1, E =>
    let dE := (E - e * Real.sin E - M) / (1 - e * Real.cos E)
    if |dE| < tol then (E - dE, 1)
    else ((keplerLoop M e tol n (E - dE)).1, (keplerLoop M e tol n (E - dE)).2 + 1)

/-- `solve_kepler(M, e)` from `orbit_math.py`: Newton iteration for
`M = E - e sin E`, seeded with `E0 = M + e sin M`, with the default
`tol = 1e-12` and `n_iter = 40`. -/
noncomputable def solve_kepler (M e : ℝ) : ℝ :=
  (keplerLoop M e 1e-12 40 (M + e * Real.sin M)).1

/-- Number of Newton iterations actually executed by `solve_kepler(M, e)`
before the early-exit tolerance check fires (40 if it never fires). -/
noncomputable def solveKeplerIters (M e : ℝ) : ℕ :=
  (keplerLoop M e 1e-12 40 (M + e * Real.sin M)).2

/-- `E_from_nu(nu, e)` from `orbit_math.py`:
`2 atan2(sqrt(1-e) sin(nu/2), sqrt(1+e) cos(nu/2))`. -/
noncomputable def E_from_nu (nu e : ℝ) : ℝ :=
  2 * atan2 (Real.sqrt (1 - e) * Real.sin (nu / 2)) (Real.sqrt (1 + e) * Real.cos (nu / 2))

/-- `M_from_E(E, e) = E - e sin E` from `orbit_math.py`. -/
noncomputable def M_from_E (E e : ℝ) : ℝ := E - e * Real.sin E

/-- At `e = 0` the very first Newton step of `keplerLoop` is exactly zero, so
the loop returns its seed unchanged after a single iteration. -/
lemma keplerLoop_zero_ecc (M tol : ℝ) (htol : 0 < tol) (n : ℕ) :
    keplerLoop M 0 tol (n + 1) M = (M, 1) := by
  have hdE : (M - 0 * Real.sin M - M) / (1 - 0 * Real.cos M) = 0 := by
    simp
  simp only [keplerLoop, hdE, abs_zero, if_pos htol, sub_zero]

/-- `solve_kepler(M, 0) = M`, reached in exactly one iteration. -/
lemma solve_kepler_zero_ecc (M : ℝ) :
    solve_kepler M 0 = M ∧ solveKeplerIters M 0 = 1 := by
  have hseed : M + 0 * Real.sin M = M := by ring
  have h : keplerLoop M 0 1e-12 40 (M + 0 * Real.sin M) = (M, 1) := by
    rw [hseed]
    exact keplerLoop_zero_ecc M 1e-12 (by norm_num) 39
  exact ⟨congrArg Prod.fst h, congrArg Prod.snd h⟩

/-- `pymod` is invariant under shifting its argument by an integer multiple
of the modulus. -/
lemma pymod_add_int_mul (x c : ℝ) (k : ℤ) (hc : c ≠ 0) :
    pymod (x + c * k) c = pymod x c := by
  unfold pymod
  have h : (x + c * k) / c = x / c + k := by
    field_simp
    ring
  rw [h, Int.floor_add_int]
  push_cast
  ring

/-- Ascending-node true anomaly used for the ascending/descending node
markers: `w_eff = w % (2π); f_asc = (-w_eff) % (2π)`, from
`RelativeCanvas._update_periastron` (relative_canvas.py lines 50-51) and
`AbsoluteCanvas._update_periastron` (absolute_canvas.py lines 116-117).
Note the formula does not depend on the inclination. -/
noncomputable def markersFasc (w : ℝ) : ℝ :=
  pymod (-(pymod w (2 * Real.pi))) (2 * Real.pi)

/-- `dir_sign` of `OrbitCanvasBase._omega_arc_points` (base_canvas.py line
330): `+1` when `i < π/2`, else `-1`. -/
noncomputable def omegaArcDirSign (i : ℝ) : ℝ :=
  if i < Real.pi / 2 then 1 else -1

/-- Starting true anomaly of the argument-of-periastron arc,
`OrbitCanvasBase._omega_arc_points` (base_canvas.py line 331):
`(-w) % (2π)` when `dir_sign > 0`, else `w % (2π)`. -/
noncomputable def omegaArcFasc (i w : ℝ) : ℝ :=
  if omegaArcDirSign i > 0 then pymod (-w) (2 * Real.pi) else pymod w (2 * Real.pi)

/-- Double reduction collapses: the marker anomaly is plain `(-w) mod 2π`. -/
lemma markersFasc_eq (w : ℝ) : markersFasc w = pymod (-w) (2 * Real.pi) := by
  have hc : (2 * Real.pi) ≠ 0 := by positivity
  have h : -(pymod w (2 * Real.pi))
      = -w + (2 * Real.pi) * (⌊w / (2 * Real.pi)⌋ : ℝ) := by
    unfold pymod
    ring
  unfold markersFasc
  rw [h, pymod_add_int_mul (-w) (2 * Real.pi) ⌊w / (2 * Real.pi)⌋ hc]

section Models

/-- `OrbitParameters` (models.py lines 15-24): semi-major axis, eccentricity,
inclination, argument of periastron, longitude of ascending node, and the
seed true anomaly. -/
structure OrbitParameters where
  a : ℝ
  e : ℝ
  i : ℝ
  w : ℝ
  Om : ℝ
  start_nu : ℝ

/-- `OrbitParameters.ensure_valid` (models.py lines 26-33): floors `a` at
`_EPS = 1e-9`, clamps `e` into `[0, 0.999999]`, passes the angles through.
It is a total function: no input is rejected. -/
def OrbitParameters.ensure_valid (p : OrbitParameters) : OrbitParameters :=
  { a := max p.a 1e-9
    e := min (max p.e 0) 0.999999
    i := p.i
    w := p.w
    Om := p.Om
    start_nu := p.start_nu }

/-- `with_updates(a=v)` specialised to the one keyword the canvas setter
passes (models.py lines 35-36): replace the field, then `ensure_valid`. -/
def OrbitParameters.with_a (p : OrbitParameters) (v : ℝ) : OrbitParameters :=
  OrbitParameters.ensure_valid { p with a := v }

/-- `with_updates(e=v)` (models.py lines 35-36). -/
def OrbitParameters.with_e (p : OrbitParameters) (v : ℝ) : OrbitParameters :=
  OrbitParameters.ensure_valid { p with e := v }

/-- `with_updates(i=v)` (models.py lines 35-36). -/
def OrbitParameters.with_i (p : OrbitParameters) (v : ℝ) : OrbitParameters :=
  OrbitParameters.ensure_valid { p with i := v }

/-- `with_updates(w=v)` (models.py lines 35-36). -/
def OrbitParameters.with_w (p : OrbitParameters) (v : ℝ) : OrbitParameters :=
  OrbitParameters.ensure_valid { p with w := v }

/-- `with_updates(Om=v)` (models.py lines 35-36). -/
def OrbitParameters.with_Om (p : OrbitParameters) (v : ℝ) : OrbitParameters :=
  OrbitParameters.ensure_valid { p with Om := v }

/-- `with_updates(start_nu=v)` (models.py lines 35-36). -/
def OrbitParameters.with_start_nu (p : OrbitParameters) (v : ℝ) : OrbitParameters :=
  OrbitParameters.ensure_valid { p with start_nu := v }

/-- `ensure_valid` is idempotent: `set_orbit` re-validates already-validated
parameters without changing them. -/
lemma ensure_valid_idem (p : OrbitParameters) :
    p.ensure_valid.ensure_valid = p.ensure_valid := by
  unfold OrbitParameters.ensure_valid
  have ha : max (max p.a 1e-9) 1e-9 = max p.a 1e-9 :=
    max_eq_left (le_max_right _ _)
  have he0 : (0 : ℝ) ≤ min (max p.e 0) 0.999999 :=
    le_min (le_max_right _ _) (by norm_num)
  have he : min (max (min (max p.e 0) 0.999999) 0) 0.999999
      = min (max p.e 0) 0.999999 := by
    rw [max_eq_left he0]
    exact min_eq_left (min_le_right _ _)
  simp only [ha, he]

/-- `MassParameters` (models.py lines 53-58). -/
structure MassParameters where
  m1 : ℝ
  m2 : ℝ

/-- `MassParameters.ensure_valid` (models.py lines 60-61): floors both masses
at `_EPS = 1e-9`. -/
def MassParameters.ensure_valid (m : MassParameters) : MassParameters :=
  { m1 := max m.m1 1e-9, m2 := max m.m2 1e-9 }

/-- `MassParameters.total_mass` (models.py lines 66-67):
`max(m1 + m2, 1e-9)`. -/
def MassParameters.total_mass (m : MassParameters) : ℝ :=
  max (m.m1 + m.m2) 1e-9

/-- `MassParameters.barycentric_factors` (models.py lines 69-71):
`(-m2/total, m1/total)`. -/
noncomputable def MassParameters.barycentric_factors (m : MassParameters) : ℝ × ℝ :=
  (-m.m2 / m.total_mass, m.m1 / m.total_mass)

/-- `MassParameters.mean_motion` (models.py lines 73-75):
`sqrt(total_mass / max(semi_major, 1e-9)^3)`. -/
noncomputable def MassParameters.mean_motion (m : MassParameters) (semi_major : ℝ) : ℝ :=
  Real.sqrt (m.total_mass / (max semi_major 1e-9) ^ 3)

/-- Inline barycentric coefficients of `AbsoluteCanvas._split_absolute`
(absolute_canvas.py lines 57-62): `c1 = -m2/(m1+m2)`, `c2 = m1/(m1+m2)`,
computed without the `total_mass` floor. -/
noncomputable def split_absolute_factors (m1 m2 : ℝ) : ℝ × ℝ :=
  (-m2 / (m1 + m2), m1 / (m1 + m2))

end Models

section Canvas

/-- The phase-relevant state of `OrbitCanvasBase`: the stored orbit and mass
parameters of its `OrbitModel`, and the displayed true/mean anomaly pair
`(nu, M)`.  Matplotlib artists and visibility flags carry no numeric content
verified here and are omitted. -/
structure CanvasState where
  orbit : OrbitParameters
  mass : MassParameters
  nu : ℝ
  M : ℝ

/-- `OrbitCanvasBase._set_nu_keep_phase` (base_canvas.py lines 342-345):
hold the displayed `nu` and derive `M = M_from_E(E_from_nu(nu, e), e)` under
the current eccentricity. -/
noncomputable def set_nu_keep_phase (nu_new : ℝ) (s : CanvasState) : CanvasState :=
  { s with nu := nu_new, M := M_from_E (E_from_nu nu_new s.orbit.e) s.orbit.e }

/-- `OrbitCanvasBase.apply_parameters` (base_canvas.py lines 376-383):
validate the incoming parameters, remember the currently displayed `nu`,
store the parameters in the model (`set_orbit` re-validates), then re-seed
the phase from the previous `nu` when `keep_phase` or from `start_nu`
otherwise.  The trailing axes/artist refresh calls do not touch
`(orbit, mass, nu, M)`. -/
noncomputable def apply_parameters (p : OrbitParameters) (keep_phase : Bool)
    (s : CanvasState) : CanvasState :=
  let params := p.ensure_valid
  let current_nu := s.nu
  let s1 := { s with orbit := params.ensure_valid }
  let target_nu := if keep_phase then current_nu else params.start_nu
  set_nu_keep_phase target_nu s1

/-- The `a` property setter (base_canvas.py lines 172-174). -/
noncomputable def set_a (v : ℝ) (s : CanvasState) : CanvasState :=
  apply_parameters (s.orbit.with_a v) true s

/-- The `e` property setter (base_canvas.py lines 180-182). -/
noncomputable def set_e (v : ℝ) (s : CanvasState) : CanvasState :=
  apply_parameters (s.orbit.with_e v) true s

/-- The `i` property setter (base_canvas.py lines 188-190). -/
noncomputable def set_i (v : ℝ) (s : CanvasState) : CanvasState :=
  apply_parameters (s.orbit.with_i v) true s

/-- The `w` property setter (base_canvas.py lines 196-198). -/
noncomputable def set_w (v : ℝ) (s : CanvasState) : CanvasState :=
  apply_parameters (s.orbit.with_w v) true s

/-- The `Om` property setter (base_canvas.py lines 204-206). -/
noncomputable def set_Om (v : ℝ) (s : CanvasState) : CanvasState :=
  apply_parameters (s.orbit.with_Om v) true s

/-- The `start_nu` property setter (base_canvas.py lines 212-214): the one
setter that passes `keep_phase=False`. -/
noncomputable def set_start_nu (v : ℝ) (s : CanvasState) : CanvasState :=
  apply_parameters (s.orbit.with_start_nu v) false s

end Canvas

section Model

/-- The value handed to a subscriber callback: the freshly stored parameter
set of the topic that changed. -/
inductive NotifyValue where
  | orbitVal : OrbitParameters → NotifyValue
  | massVal : MassParameters → NotifyValue

/-- Subscription topics of `OrbitModel` (models.py line 94). -/
inductive Topic where
  | orbit : Topic
  | mass : Topic

/-- State of `OrbitModel` (models.py lines 78-100): current orbit and mass
parameters plus the per-topic callback registries.  Callbacks are opaque to
the model, so they are represented by identifiers; an invocation is recorded
as the pair of the callback identifier and the value it received. -/
structure ModelState where
  orbit : OrbitParameters
  mass : MassParameters
  orbit_listeners : List ℕ
  mass_listeners : List ℕ

/-- `OrbitModel.subscribe` (models.py lines 94-95): append the callback to
the topic's registry (Python `list.append`). -/
def ModelState.subscribe (t : Topic) (c : ℕ) (s : ModelState) : ModelState :=
  match t with
  | .orbit => { s with orbit_listeners := s.orbit_listeners ++ [c] }
  | .mass => { s with mass_listeners := s.mass_listeners ++ [c] }

/-- `OrbitModel._notify` (models.py lines 97-100): invoke every callback of
the topic, in registry order, with the topic's current value.  Returned as
the ordered list of invocations. -/
def ModelState.notify (t : Topic) (s : ModelState) : List (ℕ × NotifyValue) :=
  match t with
  | .orbit => s.orbit_listeners.map fun c => (c, NotifyValue.orbitVal s.orbit)
  | .mass => s.mass_listeners.map fun c => (c, NotifyValue.massVal s.mass)

/-- `OrbitModel.set_orbit` (models.py lines 102-104): store the validated
parameters, then notify the `"orbit"` topic. -/
def ModelState.set_orbit (p : OrbitParameters) (s : ModelState) :
    ModelState × List (ℕ × NotifyValue) :=
  let s' := { s with orbit := p.ensure_valid }
  (s', s'.notify .orbit)

/-- `OrbitModel.set_masses` (models.py lines 109-111): store the validated
masses, then notify the `"mass"` topic. -/
def ModelState.set_masses (m : MassParameters) (s : ModelState) :
    ModelState × List (ℕ × NotifyValue) :=
  let s' := { s with mass := m.ensure_valid }
  (s', s'.notify .mass)

end Model

section Animator

/-- State of `OrbitAnimator` (animator.py lines 12-21): whether the Qt timer
is active, the speed multiplier, the per-tick mean-anomaly increment `dM`,
and the timer interval in milliseconds. -/
structure AnimatorState where
  running : Bool
  speed_scale : ℝ
  dM : ℝ
  interval_ms : ℤ

/-- `OrbitAnimator.__init__` (animator.py lines 15-21): interval 15 ms,
speed scale 1, `dM = 0.020`, timer not yet started. -/
def animator_init : AnimatorState :=
  { running := false, speed_scale := 1, dM := 0.020, interval_ms := 15 }

/-- `OrbitAnimator.start` (animator.py lines 23-25): start the timer only
when it is not already active. -/
def AnimatorState.start (s : AnimatorState) : AnimatorState :=
  if s.running then s else { s with running := true }

/-- `OrbitAnimator.stop` (animator.py lines 27-29): stop the timer only when
it is active. -/
def AnimatorState.stop (s : AnimatorState) : AnimatorState :=
  if s.running then { s with running := false } else s

/-- `OrbitAnimator.recompute_mean_motion` (animator.py lines 35-38):
`dt = max(interval, 1)/1000; dM = mean_motion(host.a) * dt * speed_scale`. -/
noncomputable def recompute_mean_motion (host : CanvasState) (s : AnimatorState) :
    AnimatorState :=
  let dt := ((max s.interval_ms 1 : ℤ) : ℝ) / 1000
  { s with dM := host.mass.mean_motion host.orbit.a * dt * s.speed_scale }

/-- `OrbitAnimator.set_speed_scale` (animator.py lines 31-33): clamp the
scale at zero from below, then immediately recompute `dM`. -/
noncomputable def set_speed_scale (scale : ℝ) (host : CanvasState) (s : AnimatorState) :
    AnimatorState :=
  recompute_mean_motion host { s with speed_scale := max scale 0 }

end Animator

/-- A concrete canvas state with the application's default `a`, `e` and
masses, used to instantiate the animator results. -/
def host0 : CanvasState :=
  { orbit := { a := 1, e := 0.5, i := 0, w := 0, Om := 0, start_nu := 0 }
    mass := { m1 := 1.6, m2 := 0.8 }
    nu := 0
    M := 0 }

/-- C4: `OrbitParameters.ensure_valid` is a total function (no input is
rejected) returning a corrected copy with `a = max(a, 1e-9)`,
`e = min(max(e, 0), 0.999999)` and the angles `i, w, Om, start_nu` passed
through unchanged; the corrected `a` is strictly positive and the corrected
`e` is at most `0.999999`, in particular at the input `a = -5, e = 1.5`. -/
theorem ensure_valid_clamps (p : OrbitParameters) :
    p.ensure_valid.a = max p.a 1e-9 ∧
    p.ensure_valid.e = min (max p.e 0) 0.999999 ∧
    p.ensure_valid.i = p.i ∧
    p.ensure_valid.w = p.w ∧
    p.ensure_valid.Om = p.Om ∧
    p.ensure_valid.start_nu = p.start_nu ∧
    0 < p.ensure_valid.a ∧
    p.ensure_valid.e ≤ 0.999999 ∧
    0 < (OrbitParameters.ensure_valid ⟨-5, 1.5, p.i, p.w, p.Om, p.start_nu⟩).a ∧
    (OrbitParameters.ensure_valid ⟨-5, 1.5, p.i, p.w, p.Om, p.start_nu⟩).e ≤ 0.999999 := by
  have hpos : ∀ x : ℝ, 0 < max x 1e-9 :=
    fun x => lt_of_lt_of_le (by norm_num) (le_max_right x 1e-9)
  exact ⟨rfl, rfl, rfl, rfl, rfl, rfl, hpos p.a, min_le_right _ _,
    hpos (-5), min_le_right _ _⟩

/-- C5: `solve_kepler(M, 0)` returns `E = M` exactly, and the Newton loop
exits after its first iteration (the first update step is exactly zero, so
the early-exit tolerance check fires immediately). -/
theorem solve_kepler_circular (M : ℝ) :
    solve_kepler M 0 = M ∧ solveKeplerIters M 0 = 1 :=
  solve_kepler_zero_ecc M

/-- C3: `apply_parameters(params, keep_phase=True)` leaves the displayed
`nu` (and the stored masses) unchanged and recomputes `M` consistently with
the held `nu` under the newly validated eccentricity, while
`keep_phase=False` seeds `nu` from `params.start_nu`; the canvas setters for
`a, e, i, w, Om` all keep phase, and the `start_nu` setter reseeds. -/
theorem apply_parameters_phase_policy (p : OrbitParameters) (s : CanvasState) (v : ℝ) :
    (apply_parameters p true s).nu = s.nu ∧
    (apply_parameters p true s).M
      = M_from_E (E_from_nu s.nu p.ensure_valid.e) p.ensure_valid.e ∧
    (apply_parameters p true s).mass = s.mass ∧
    (apply_parameters p false s).nu = p.start_nu ∧
    (set_a v s).nu = s.nu ∧
    (set_e v s).nu = s.nu ∧
    (set_i v s).nu = s.nu ∧
    (set_w v s).nu = s.nu ∧
    (set_Om v s).nu = s.nu ∧
    (set_start_nu v s).nu = v := by
  refine ⟨rfl, ?_, rfl, rfl, rfl, rfl, rfl, rfl, rfl, ?_⟩
  · show M_from_E (E_from_nu s.nu p.ensure_valid.ensure_valid.e)
        p.ensure_valid.ensure_valid.e = _
    rw [ensure_valid_idem]
  · show ((s.orbit.with_start_nu v).ensure_valid).start_nu = v
    simp [OrbitParameters.with_start_nu, OrbitParameters.ensure_valid]

/-- C7: the animator starts stopped; `start()` always results in the running
state and `stop()` in the stopped state, and each is a no-op on a state that
is already on its target side. -/
theorem animator_state_machine (s : AnimatorState) :
    animator_init.running = false ∧
    s.start.running = true ∧
    s.stop.running = false ∧
    (s.running = true → s.start = s) ∧
    (s.running = false → s.stop = s) := by
  refine ⟨rfl, ?_, ?_, ?_, ?_⟩
  · cases hs : s.running <;> simp [AnimatorState.start, hs]
  · cases hs : s.running <;> simp [AnimatorState.stop, hs]
  · intro h
    simp [AnimatorState.start, h]
  · intro h
    simp [AnimatorState.stop, h]

/-- Closed instance of C7 at the initial state. -/
theorem animator_state_machine_witness :
    animator_init.running = false ∧ animator_init.stop = animator_init :=
  ⟨(animator_state_machine animator_init).1,
   (animator_state_machine animator_init).2.2.2.2 rfl⟩

/-- C8: `set_orbit(p)` stores `p.ensure_valid()`, leaves the mass value and
the registries untouched, and invokes exactly the `"orbit"`-topic callbacks,
in registration order, each with the newly stored validated value — and
symmetrically for `set_masses`; `subscribe` appends to the registry of its
topic only. -/
theorem orbit_model_notify_policy (s : ModelState) (p : OrbitParameters)
    (m : MassParameters) (c : ℕ) :
    (s.set_orbit p).1.orbit = p.ensure_valid ∧
    (s.set_orbit p).1.mass = s.mass ∧
    (s.set_orbit p).1.orbit_listeners = s.orbit_listeners ∧
    (s.set_orbit p).1.mass_listeners = s.mass_listeners ∧
    (s.set_orbit p).2
      = s.orbit_listeners.map (fun cb => (cb, NotifyValue.orbitVal p.ensure_valid)) ∧
    (s.set_masses m).1.mass = m.ensure_valid ∧
    (s.set_masses m).1.orbit = s.orbit ∧
    (s.set_masses m).2
      = s.mass_listeners.map (fun cb => (cb, NotifyValue.massVal m.ensure_valid)) ∧
    (s.subscribe .orbit c).orbit_listeners = s.orbit_listeners ++ [c] ∧
    (s.subscribe .orbit c).mass_listeners = s.mass_listeners ∧
    (s.subscribe .mass c).mass_listeners = s.mass_listeners ++ [c] ∧
    (s.subscribe .mass c).orbit_listeners = s.orbit_listeners := by
  refine ⟨rfl, rfl, rfl, rfl, rfl, rfl, rfl, rfl, rfl, rfl, rfl, rfl⟩

/-- C9: for validated masses (both at or above the `1e-9` floor) the inline
coefficients of `AbsoluteCanvas._split_absolute` coincide with
`MassParameters.barycentric_factors()`, the omitted `total_mass` floor
notwithstanding. -/
theorem split_absolute_matches_barycentric (m1 m2 : ℝ)
    (h1 : 1e-9 ≤ m1) (h2 : 1e-9 ≤ m2) :
    split_absolute_factors m1 m2 = MassParameters.barycentric_factors ⟨m1, m2⟩ := by
  have ht : MassParameters.total_mass ⟨m1, m2⟩ = m1 + m2 :=
    max_eq_left (by linarith)
  unfold split_absolute_factors MassParameters.barycentric_factors
  rw [ht]

/-- Closed instance of C9 at the application's default masses. -/
theorem split_absolute_matches_barycentric_witness :
    split_absolute_factors 1.6 0.8 = MassParameters.barycentric_factors ⟨1.6, 0.8⟩ :=
  split_absolute_matches_barycentric 1.6 0.8 (by norm_num) (by norm_num)

/-- C10: `set_speed_scale` stores `max(scale, 0)` and immediately recomputes
`dM`; a negative argument therefore freezes the animation (`dM = 0`) instead
of reversing it, and after any recompute
`dM = mean_motion(a) * (max(interval_ms, 1)/1000) * speed_scale`. -/
theorem set_speed_scale_spec (scale : ℝ) (host : CanvasState) (s : AnimatorState) :
    (set_speed_scale scale host s).speed_scale = max scale 0 ∧
    (set_speed_scale scale host s).dM
      = host.mass.mean_motion host.orbit.a
        * (((max s.interval_ms 1 : ℤ) : ℝ) / 1000) * max scale 0 ∧
    (scale < 0 → (set_speed_scale scale host s).dM = 0) ∧
    (recompute_mean_motion host s).dM
      = host.mass.mean_motion host.orbit.a
        * (((max s.interval_ms 1 : ℤ) : ℝ) / 1000) * s.speed_scale := by
  refine ⟨rfl, rfl, ?_, rfl⟩
  intro h
  have hm : max scale 0 = 0 := max_eq_right h.le
  simp [set_speed_scale, recompute_mean_motion, hm]

/-- Closed instance of C10: a negative scale freezes the animation. -/
theorem set_speed_scale_spec_witness :
    (set_speed_scale (-1) host0 animator_init).dM = 0 :=
  (set_speed_scale_spec (-1) host0 animator_init).2.2.1 (by norm_num)

/-- C1 counterexample: at inclination `i = 2 ≥ π/2` and `w = π/2`, the node
markers do NOT use `f_asc = w mod 2π` as claimed — the marker code computes
`(-w) mod 2π = 3π/2`, independent of the inclination. -/
theorem node_marker_flip_counterexample :
    Real.pi / 2 ≤ 2 ∧
    markersFasc (Real.pi / 2) ≠ pymod (Real.pi / 2) (2 * Real.pi) := by
  have hπ := Real.pi_pos
  have hne : Real.pi ≠ 0 := Real.pi_ne_zero
  constructor
  · linarith [Real.pi_le_four]
  · have h1 : pymod (Real.pi / 2) (2 * Real.pi) = Real.pi / 2 := by
      unfold pymod
      have hq : Real.pi / 2 / (2 * Real.pi) = 1 / 4 := by
        field_simp
        ring
      have h0 : ⌊((1 : ℝ) / 4)⌋ = 0 := by
        rw [Int.floor_eq_iff]
        norm_num
      rw [hq, h0]
      norm_num
    have h2 : pymod (-(Real.pi / 2)) (2 * Real.pi) = 3 * Real.pi / 2 := by
      unfold pymod
      have hq : -(Real.pi / 2) / (2 * Real.pi) = -(1 / 4) := by
        field_simp
        ring
      have h0 : ⌊(-(1 / 4) : ℝ)⌋ = -1 := by
        rw [Int.floor_eq_iff]
        norm_num
      rw [hq, h0]
      push_cast
      ring
    rw [markersFasc_eq, h2, h1]
    intro hEq
    nlinarith

/-- C1 amended: the node markers always use `f_asc = (-w) mod 2π`,
independent of the inclination; the inclination-dependent flip (`(-w) mod 2π`
below `π/2`, `w mod 2π` at or above) applies only to the starting anomaly of
the argument-of-periastron arc computed by `_omega_arc_points`. -/
theorem node_marker_fasc_formula (w i : ℝ) :
    markersFasc w = pymod (-w) (2 * Real.pi) ∧
    omegaArcFasc i w
      = (if i < Real.pi / 2 then pymod (-w) (2 * Real.pi)
         else pymod w (2 * Real.pi)) := by
  refine ⟨markersFasc_eq w, ?_⟩
  unfold omegaArcFasc omegaArcDirSign
  by_cases h : i < Real.pi / 2 <;> simp [h]

/-- C6 counterexample: `mean_motion` floors its semi-major-axis argument at
`1e-9`, so at the strictly positive input `a = 1e-10` it does not equal
`sqrt((m1+m2)/a^3)`. -/
theorem mean_motion_counterexample :
    (0 : ℝ) < 1e-10 ∧ (0 : ℝ) < 1 ∧
    MassParameters.mean_motion ⟨1, 1⟩ 1e-10
      ≠ Real.sqrt ((1 + 1) / (1e-10 : ℝ) ^ 3) := by
  refine ⟨by norm_num, by norm_num, ?_⟩
  unfold MassParameters.mean_motion MassParameters.total_mass
  have h1 : max (1e-10 : ℝ) 1e-9 = 1e-9 := max_eq_right (by norm_num)
  have h2 : max ((1 : ℝ) + 1) 1e-9 = 1 + 1 := max_eq_left (by norm_num)
  rw [h1, h2]
  have hlt : ((1 : ℝ) + 1) / (1e-9 : ℝ) ^ 3 < (1 + 1) / (1e-10 : ℝ) ^ 3 := by
    norm_num
  exact ne_of_lt (Real.sqrt_lt_sqrt (by positivity) hlt)

/-- C6 amended: for masses and semi-major axis at or above the `1e-9`
validity floor (the `ensure_valid` invariant), `mean_motion(a)` equals
`sqrt((m1+m2)/a^3)` and is strictly decreasing in `a`. -/
theorem mean_motion_formula_valid (m1 m2 a : ℝ)
    (h1 : 1e-9 ≤ m1) (h2 : 1e-9 ≤ m2) (ha : 1e-9 ≤ a) :
    MassParameters.mean_motion ⟨m1, m2⟩ a = Real.sqrt ((m1 + m2) / a ^ 3) ∧
    ∀ a', a < a' →
      MassParameters.mean_motion ⟨m1, m2⟩ a' < MassParameters.mean_motion ⟨m1, m2⟩ a := by
  have htot : MassParameters.total_mass ⟨m1, m2⟩ = m1 + m2 :=
    max_eq_left (by linarith)
  constructor
  · unfold MassParameters.mean_motion
    rw [htot, max_eq_left ha]
  · intro a' ha'
    unfold MassParameters.mean_motion
    rw [htot, max_eq_left ha, max_eq_left (by linarith)]
    have hpos : (0 : ℝ) < m1 + m2 := by linarith
    have ha0 : (0 : ℝ) < a := by linarith
    have ha'0 : (0 : ℝ) < a' := ha0.trans ha'
    apply Real.sqrt_lt_sqrt (div_nonneg hpos.le (pow_pos ha'0 3).le)
    exact div_lt_div_of_pos_left hpos (pow_pos ha0 3)
      (pow_lt_pow_left₀ ha' ha0.le (by norm_num))

/-- Closed instance of the amended C6 at `m1 = m2 = 1`, comparing
`a = 1` and `a' = 2`. -/
theorem mean_motion_formula_valid_witness :
    MassParameters.mean_motion ⟨1, 1⟩ 1 = Real.sqrt ((1 + 1) / 1 ^ 3) ∧
    MassParameters.mean_motion ⟨1, 1⟩ 2 < MassParameters.mean_motion ⟨1, 1⟩ 1 :=
  ⟨(mean_motion_formula_valid 1 1 1 (by norm_num) (by norm_num) (by norm_num)).1,
   (mean_motion_formula_valid 1 1 1 (by norm_num) (by norm_num) (by norm_num)).2
     2 (by norm_num)⟩

end Orbel
